import Mathlib

/-!
Shallow embedding of `scripts/bench_summary.py`, the criterion benchmark
summarizer of the base-d repository, together with theorems settling the
specification claims about it.

Modelling conventions:
* Python floats are modelled as `ℚ`.  All the concrete quantities appearing
  in the claims are exactly representable and the formatted outputs agree
  with IEEE-754 double evaluation.
* `print` calls are modelled by accumulating the printed strings (one list
  element per `print` call; embedded newline characters are kept literally).
* Python exceptions are modelled with `Except PyError`; an uncaught
  exception aborts the run (`RunResult.raised`), `sys.exit(1)` is
  `RunResult.exited`.
* The filesystem consumed by the script is abstracted into `GroupFS`
  (one benchmark group directory) and `CriterionFS` (the root directory).
-/

namespace BenchSummary

/-- Floor of a rational number, computed from numerator and denominator. -/
def qfloor (q : ℚ) : ℤ := Int.fdiv q.num (q.den : ℤ)

/-- Round a rational to the nearest integer, ties to even.  This is the
rounding used by Python `format` on the exact value of a float. -/
def rhe (q : ℚ) : ℤ :=
  let f := qfloor q
  let r := q - (f : ℚ)
  if r < 1/2 then f
  else if r = 1/2 then (if f % 2 = 0 then f else f + 1)
  else f + 1

/-- Left-pad a digit string with zeros up to width `d`. -/
def padZeros (d : Nat) (s : String) : String :=
  String.mk (List.replicate (d - s.length) '0') ++ s

/-- Python fixed-point formatting `f"{q:.df}"` on the exact value `q`
(nonzero negative values round toward the model of `abs`; the Python
corner case `"-0.0"` for tiny negatives is not reproduced, and no claim
touches it). -/
def formatFixed (q : ℚ) (d : Nat) : String :=
  let n := rhe (q * ((10 : ℚ) ^ d))
  let sign := if n < 0 then "-" else ""
  let m := n.natAbs
  sign ++ toString (m / 10 ^ d) ++ "." ++ padZeros d (toString (m % 10 ^ d))

/-- Python `f"{s:<w}"`: pad on the right with spaces to minimum width `w`. -/
def padR (s : String) (w : Nat) : String :=
  s ++ String.mk (List.replicate (w - s.length) ' ')

/-- The Python exceptions relevant to `bench_summary.py`. -/
inductive PyError where
  | fileNotFoundError
  | jsonDecodeError
  | keyError
  | typeError
  | zeroDivisionError
deriving DecidableEq, Repr

/-- Parsed JSON values (the result of a successful `json.load`).  In `obj`
the field list models a Python dict, so keys are unique. -/
inductive Json where
  | null
  | bool (b : Bool)
  | num (q : ℚ)
  | str (s : String)
  | arr (elems : List Json)
  | obj (fields : List (String × Json))

/-- Field lookup in the field list of a JSON object. -/
def lookupJ : List (String × Json) → String → Option Json
  | [], _ => none
  | (k, v) :: rest, key => if k = key then some v else lookupJ rest key

/-- Python subscription `j[key]` with a string key: succeeds only on a dict
containing the key; a dict missing the key raises `KeyError`; any non-dict
value raises `TypeError`. -/
def pyIndex (j : Json) (key : String) : Except PyError Json :=
  match j with
  | .obj fields =>
    match lookupJ fields key with
    | some v => .ok v
    | none => .error .keyError
  | _ => .error .typeError

/-- Numeric value of a JSON value used as an operand of Python `/`:
numbers are themselves, Python booleans are ints `1`/`0`; every other
value raises `TypeError` when divided. -/
def jsonToNum : Json → Option ℚ
  | .num q => some q
  | .bool b => some (if b then 1 else 0)
  | _ => none

/-- State of the `new/estimates.json` file under one size directory:
absent (`FileNotFoundError` on `open`), present but not valid JSON
(`json.JSONDecodeError`), or parsed JSON content. -/
inductive FileRead where
  | absent
  | malformed
  | content (data : Json)

/-- The dict built by `parse_estimates`: the raw JSON values found at
`data["mean"]["point_estimate"]` and `data["std_dev"]["point_estimate"]`. -/
structure Estimates where
  mean_ns : Json
  std_dev_ns : Json

/-- Body of the `try` block of `parse_estimates` after a successful
`json.load`: evaluate `data["mean"]["point_estimate"]` and
`data["std_dev"]["point_estimate"]` in order, stopping at the first
exception. -/
def extractEstimates (data : Json) : Except PyError Estimates :=
  match pyIndex data "mean" with
  | .error e => .error e
  | .ok m =>
    match pyIndex m "point_estimate" with
    | .error e => .error e
    | .ok mp =>
      match pyIndex data "std_dev" with
      | .error e => .error e
      | .ok s =>
        match pyIndex s "point_estimate" with
        | .error e => .error e
        | .ok sp => .ok ⟨mp, sp⟩

/-- `parse_estimates`: the `try` block opens the file, parses it and
extracts the two point estimates; `FileNotFoundError`, `JSONDecodeError`
and `KeyError` are caught and collapse to `None`; any other exception
(notably `TypeError` from subscripting a non-dict) propagates. -/
def parse_estimates (file : FileRead) : Except PyError (Option Estimates) :=
  match file with
  | .absent => .ok none
  | .malformed => .ok none
  | .content data =>
    match extractEstimates data with
    | .ok est => .ok (some est)
    | .error .keyError => .ok none
    | .error e => .error e

/-- `get_throughput`: `seconds = mean_ns / 1_000_000_000`;
`mb_per_sec = (size_bytes / seconds) / (1024 * 1024)`; the division by
`seconds` raises `ZeroDivisionError` when `seconds == 0` (i.e. when
`mean_ns == 0`), which this embedding makes explicit. -/
def get_throughput (mean_ns : ℚ) (size_bytes : ℚ) : Except PyError (ℚ × String) :=
  let seconds := mean_ns / 1000000000
  if seconds = 0 then .error .zeroDivisionError
  else
    let mb_per_sec := (size_bytes / seconds) / (1024 * 1024)
    if mb_per_sec ≥ 1000 then .ok (mb_per_sec, formatFixed (mb_per_sec / 1024) 2 ++ " GB/s")
    else .ok (mb_per_sec, formatFixed mb_per_sec 1 ++ " MB/s")

/-- One entry of the nested result dict:
`{**estimates, "throughput": formatted, "throughput_mbps": mb_per_sec}`.
The `mean_ns` field is numeric here because the entry is only built after
`get_throughput` succeeded on it. -/
structure ThroughputResult where
  mean_ns : ℚ
  std_dev_ns : Json
  throughput : String
  throughput_mbps : ℚ

/-- Inner dict of `Group.results`: size ↦ entry, in insertion order. -/
abbrev SizeMap := List (Nat × ThroughputResult)

/-- `Group.results`: variant name ↦ size map, in insertion order. -/
abbrev Results := List (String × SizeMap)

/-- One group directory as seen by `summarize_dictionary`: which variant
subdirectories exist, which size subdirectories exist, and the state of
each size directory's `new/estimates.json`. -/
structure GroupFS where
  variantExists : String → Bool
  sizeExists : String → Nat → Bool
  file : String → Nat → FileRead

/-- The fixed variant enumeration `["Scalar", "LUT", "Specialized"]`. -/
def paths : List String := ["Scalar", "LUT", "Specialized"]

/-- The fixed size enumeration. -/
def sizes : List Nat := [64, 256, 1024, 4096, 16384, 65536]

/-- Inner loop of `summarize_dictionary` over the size list for one
variant directory that exists; an exception raised at one size aborts the
whole run before later sizes are visited. -/
def summarize_sizes (g : GroupFS) (path : String) : List Nat → Except PyError SizeMap
  | [] => .ok []
  | size :: rest =>
    if g.sizeExists path size then
      match parse_estimates (g.file path size) with
      | .error e => .error e
      | .ok none => summarize_sizes g path rest
      | .ok (some est) =>
        match jsonToNum est.mean_ns with
        | none => .error .typeError
        | some m =>
          match get_throughput m (size : ℚ) with
          | .error e => .error e
          | .ok (mbps, fstr) =>
            match summarize_sizes g path rest with
            | .error e => .error e
            | .ok tail => .ok ((size, ⟨m, est.std_dev_ns, fstr, mbps⟩) :: tail)
    else summarize_sizes g path rest

/-- Outer loop of `summarize_dictionary` over the variant list: a variant
whose directory exists gets an entry (`results[path] = {}`) before any of
its sizes are examined. -/
def summarize_variants (g : GroupFS) : List String → Except PyError Results
  | [] => .ok []
  | p :: rest =>
    if g.variantExists p then
      match summarize_sizes g p sizes with
      | .error e => .error e
      | .ok sm =>
        match summarize_variants g rest with
        | .error e => .error e
        | .ok tail => .ok ((p, sm) :: tail)
    else summarize_variants g rest

/-- `summarize_dictionary`. -/
def summarize_dictionary (g : GroupFS) : Except PyError Results :=
  summarize_variants g paths

/-- `path in results and 65536 in results[path]`-style lookup of one
result entry. -/
def lookup2 (results : Results) (path : String) (size : Nat) : Option ThroughputResult :=
  match results.lookup path with
  | none => none
  | some sm => sm.lookup size

/-- The root `target/criterion` directory: whether it exists, the names
listed by `iterdir`, which of them are directories, and each group's
contents. -/
structure CriterionFS where
  rootExists : Bool
  entries : List String
  isDir : String → Bool
  groups : String → GroupFS

/-- Insert into a name-sorted association list (used to model Python
`sorted`; keys are distinct directory names, so stability is moot). -/
def insertByName {α : Type} (x : String × α) : List (String × α) → List (String × α)
  | [] => [x]
  | y :: ys => if x.1 ≤ y.1 then x :: y :: ys else y :: insertByName x ys

/-- Sort an association list by name, modelling `sorted(d.items())`. -/
def sortByName {α : Type} : List (String × α) → List (String × α)
  | [] => []
  | x :: xs => insertByName x (sortByName xs)

/-- Insertion step for sorting a list of names. -/
def insertStr (x : String) : List String → List String
  | [] => [x]
  | y :: ys => if x ≤ y then x :: y :: ys else y :: insertStr x ys

/-- Sort directory names, modelling `sorted(CRITERION_DIR.iterdir())`
(paths share the root prefix, so path order is name order). -/
def sortStrings : List String → List String
  | [] => []
  | x :: xs => insertStr x (sortStrings xs)

/-- Outcome of running one of the two report entry points. -/
inductive RunResult where
  | exited (lines : List String) (code : Nat)
  | raised (lines : List String) (e : PyError)
  | finished (lines : List String)
deriving DecidableEq

/-- The `all_results` collection loop shared shape of `print_full_table`:
skip non-directories and the `report` entry, summarize the rest; an
exception propagates before anything is printed. -/
def collect_results (fs : CriterionFS) : List String → Except PyError (List (String × Results))
  | [] => .ok []
  | name :: rest =>
    if fs.isDir name && name != "report" then
      match summarize_dictionary (fs.groups name) with
      | .error e => .error e
      | .ok r =>
        match collect_results fs rest with
        | .error e => .error e
        | .ok tail => .ok ((name, r) :: tail)
    else collect_results fs rest

/-- One cell lookup of the compact table
(`path in results and 65536 in results[path]`), paired with the values it
uses: the display string and `throughput_mbps`. -/
def compactCell (results : Results) (path : String) : Option (String × ℚ) :=
  (lookup2 results path 65536).map fun r => (r.throughput, r.throughput_mbps)

/-- Loop body of the compact row: append the cell (or a dash) to the row
and update `(best_path, best_throughput)` on strict `>`. -/
def compactStep (results : Results) (acc : String × Option String × ℚ) (path : String) :
    String × Option String × ℚ :=
  match compactCell results path with
  | some (tp, tp_mbps) =>
    if acc.2.2 < tp_mbps then (acc.1 ++ " " ++ padR tp 12, some path, tp_mbps)
    else (acc.1 ++ " " ++ padR tp 12, acc.2.1, acc.2.2)
  | none => (acc.1 ++ " " ++ padR "-" 12, acc.2.1, acc.2.2)

/-- The variant loop of one compact row, starting from the padded group
name, no best path and best throughput `0`. -/
def compactFold (name : String) (results : Results) : String × Option String × ℚ :=
  paths.foldl (compactStep results) (padR name 25, none, 0)

/-- One row of the compact table: the accumulated cells, with the best
variant name appended when one was found. -/
def compactRow (name : String) (results : Results) : String :=
  match compactFold name results with
  | (row, some p, _) => row ++ " " ++ p
  | (row, none, _) => row

/-- Body rows of the compact table: one per group in sorted order, except
that a group whose results dict is empty is skipped
(`if not results: continue`). -/
def compactBody : List (String × Results) → List String
  | [] => []
  | (name, results) :: rest =>
    if results.isEmpty then compactBody rest
    else compactRow name results :: compactBody rest

/-- A run of `n` copies of one character, modelling `c * n` strings. -/
def repChar (c : Char) (n : Nat) : String := String.mk (List.replicate n c)

/-- Header lines of the compact table. -/
def compactHeader : List String :=
  ["\n" ++ repChar '=' 90,
   "base-d Benchmark Summary (64KB input)",
   repChar '=' 90,
   padR "Operation/Dictionary" 25 ++ " " ++ padR "Scalar" 12 ++ " " ++ padR "LUT" 12 ++
     " " ++ padR "Specialized" 12 ++ " " ++ padR "Best" 10,
   repChar '-' 90]

/-- `print_full_table`. -/
def print_full_table (fs : CriterionFS) : RunResult :=
  if fs.rootExists then
    match collect_results fs (sortStrings fs.entries) with
    | .error e => .raised [] e
    | .ok all =>
      .finished (compactHeader ++ compactBody (sortByName all) ++ [repChar '-' 90])
  else .exited ["No benchmark results found. Run: cargo bench"] 1

/-- The three sizes shown in detailed-mode rows. -/
def detailedSizes : List Nat := [64, 1024, 65536]

/-- One variant row of the detailed table. -/
def detailedRow (sm : SizeMap) (path : String) : String :=
  detailedSizes.foldl
    (fun row size =>
      match sm.lookup size with
      | some r => row ++ " " ++ padR r.throughput 10
      | none => row ++ " " ++ padR "-" 10)
    ("  " ++ padR path 12)

/-- The variant rows of one detailed-mode block, in fixed variant order,
skipping variants absent from the results dict. -/
def detailedRowLines (results : Results) : List String :=
  paths.foldr
    (fun path acc =>
      match results.lookup path with
      | none => acc
      | some sm => detailedRow sm path :: acc)
    []

/-- One speedup line: absent variant prints nothing; a present variant
divides the scalar mean by its mean (`ZeroDivisionError` when that mean is
zero — unreachable for results produced by `summarize_dictionary`). -/
def speedupLine (scalar_ns : ℚ) (results : Results) (path : String) :
    Except PyError (List String) :=
  match lookup2 results path 65536 with
  | none => .ok []
  | some r =>
    if r.mean_ns = 0 then .error .zeroDivisionError
    else .ok ["    " ++ path ++ ": " ++ formatFixed (scalar_ns / r.mean_ns) 1 ++ "x"]

/-- The speedup section of one detailed-mode block: printed lines plus the
exception, if one was raised after them.  Nothing is printed when Scalar
has no entry at size 65536. -/
def speedupSectionLines (results : Results) : List String × Option PyError :=
  match lookup2 results "Scalar" 65536 with
  | none => ([], none)
  | some rS =>
    let hdr := ["\n  Speedup vs Scalar (64KB):"]
    match speedupLine rS.mean_ns results "LUT" with
    | .error e => (hdr, some e)
    | .ok l1 =>
      match speedupLine rS.mean_ns results "Specialized" with
      | .error e => (hdr ++ l1, some e)
      | .ok l2 => (hdr ++ l1 ++ l2, none)

/-- Column header line of a detailed-mode block. -/
def detailedColHeader : String :=
  "  " ++ padR "Path" 12 ++ " " ++ padR "64B" 10 ++ " " ++ padR "1KB" 10 ++ " " ++ padR "64KB" 10

/-- Rule line of a detailed-mode block. -/
def detailedColRule : String :=
  "  " ++ repChar '-' 12 ++ " " ++ repChar '-' 10 ++ " " ++ repChar '-' 10 ++ " " ++ repChar '-' 10

/-- Group loop of `print_detailed`: the group name and rule are printed
before aggregation, so an exception raised while aggregating (or in the
speedup section) leaves them on the output. -/
def detailedLoop (fs : CriterionFS) (acc : List String) : List String → RunResult
  | [] => .finished acc
  | name :: rest =>
    if fs.isDir name && name != "report" then
      let acc := acc ++ ["\n" ++ name, repChar '-' 60]
      match summarize_dictionary (fs.groups name) with
      | .error e => .raised acc e
      | .ok results =>
        if results.isEmpty then detailedLoop fs (acc ++ ["  No results yet"]) rest
        else
          let acc := acc ++ [detailedColHeader, detailedColRule] ++ detailedRowLines results
          match speedupSectionLines results with
          | (lines, some e) => .raised (acc ++ lines) e
          | (lines, none) => detailedLoop fs (acc ++ lines) rest
    else detailedLoop fs acc rest

/-- `print_detailed`. -/
def print_detailed (fs : CriterionFS) : RunResult :=
  if fs.rootExists then
    detailedLoop fs
      ["\n" ++ repChar '=' 80, "base-d Benchmark Results (Detailed)", repChar '=' 80]
      (sortStrings fs.entries)
  else .exited ["No benchmark results found. Run: cargo bench"] 1

/-- Spec-side description of the speedup lines (one per variant with a
result at size 65536, showing `scalar_ns / variant_ns` to one decimal with
an `x` suffix), used to state what the code's speedup section prints. -/
def speedupLinesOf (scalar_ns : ℚ) (results : Results) (path : String) : List String :=
  match lookup2 results path 65536 with
  | none => []
  | some r => ["    " ++ path ++ ": " ++ formatFixed (scalar_ns / r.mean_ns) 1 ++ "x"]

/-- Best-tracking component of the compact-row fold, separated from the
row-string accumulation (proof helper; `compactFold` is the code). -/
def bestScan (results : Results) : List String → Option String × ℚ → Option String × ℚ
  | [], b => b
  | p :: rest, b =>
    match compactCell results p with
    | some (_, mbps) =>
      if b.2 < mbps then bestScan results rest (some p, mbps) else bestScan results rest b
    | none => bestScan results rest b

/-- A well-formed `estimates.json` content with the given point estimates. -/
def estFile (m s : ℚ) : FileRead :=
  .content (.obj [("mean", .obj [("point_estimate", .num m)]),
                  ("std_dev", .obj [("point_estimate", .num s)])])

/-- A group directory with no recognized variant subdirectories. -/
def gEmpty : GroupFS := ⟨fun _ => false, fun _ _ => false, fun _ _ => .absent⟩

/-- A group directory with a `Scalar` subdirectory but no size
subdirectories inside it. -/
def gC2 : GroupFS := ⟨fun p => p == "Scalar", fun _ _ => false, fun _ _ => .absent⟩

/-- A group whose `Scalar` and `LUT` variants both report mean `-1` ns at
size 65536 (equal, negative throughputs). -/
def gC6 : GroupFS :=
  ⟨fun p => p == "Scalar" || p == "LUT", fun _ s => s == 65536, fun _ _ => estFile (-1) 1⟩

/-- A group with Scalar mean 1000 ns and LUT mean 500 ns at size 65536. -/
def gC8 : GroupFS :=
  ⟨fun p => p == "Scalar" || p == "LUT", fun _ s => s == 65536,
   fun p _ => if p == "Scalar" then estFile 1000 2 else estFile 500 2⟩

/-- A group with a successfully parsed record whose mean estimate is 0. -/
def gC10 : GroupFS := ⟨fun p => p == "Scalar", fun _ s => s == 64, fun _ _ => estFile 0 1⟩

/-- A root directory holding one group with no variant subdirectories. -/
def fsC1 : CriterionFS := ⟨true, ["g"], fun _ => true, fun _ => gEmpty⟩

/-- A root directory holding one group with a zero-mean record. -/
def fsC10 : CriterionFS := ⟨true, ["g"], fun _ => true, fun _ => gC10⟩

/-- A missing root directory. -/
def fsNoRoot : CriterionFS := ⟨false, [], fun _ => false, fun _ => gEmpty⟩

/-- The aggregation of `gC6`: equal negative throughputs for Scalar and
LUT at size 65536. -/
def rC6 : Results :=
  [("Scalar", [(65536, ⟨-1, .num 1, "-62500000.0 MB/s", -62500000⟩)]),
   ("LUT", [(65536, ⟨-1, .num 1, "-62500000.0 MB/s", -62500000⟩)])]

/-- The aggregation of `gC8`. -/
def rC8 : Results :=
  [("Scalar", [(65536, ⟨1000, .num 2, "61.04 GB/s", 62500⟩)]),
   ("LUT", [(65536, ⟨500, .num 2, "122.07 GB/s", 125000⟩)])]

/-- A results structure with equal positive throughputs for Scalar and
LUT at size 65536. -/
def rW6 : Results :=
  [("Scalar", [(65536, ⟨1, .num 1, "t", 5⟩)]),
   ("LUT", [(65536, ⟨1, .num 1, "t", 5⟩)])]


theorem get_throughput_ok_mean_ne {m s : ℚ} {x : ℚ × String}
    (h : get_throughput m s = .ok x) : m ≠ 0 := by
  intro hm
  subst hm
  simp [get_throughput] at h

theorem summarize_sizes_lookup (g : GroupFS) (p : String) :
    ∀ (ss : List Nat) (sm : SizeMap), summarize_sizes g p ss = .ok sm →
      ∀ (size : Nat) (r : ThroughputResult), sm.lookup size = some r →
        size ∈ ss ∧ g.sizeExists p size = true ∧
          (∃ est, parse_estimates (g.file p size) = .ok (some est)) ∧ r.mean_ns ≠ 0 := by
  intro ss
  induction ss with
  | nil =>
    intro sm h size r hr
    simp only [summarize_sizes] at h
    cases h
    simp at hr
  | cons s0 rest ih =>
    intro sm h size r hr
    simp only [summarize_sizes] at h
    split at h
    case isTrue hex =>
      split at h
      case h_1 e hpe => exact absurd h (by simp)
      case h_2 hpe =>
        obtain ⟨h1, h2, h3, h4⟩ := ih sm h size r hr
        exact ⟨List.mem_cons_of_mem _ h1, h2, h3, h4⟩
      case h_3 est hpe =>
        split at h
        case h_1 hjn => exact absurd h (by simp)
        case h_2 m hjn =>
          split at h
          case h_1 e hgt => exact absurd h (by simp)
          case h_2 pr hgt =>
            split at h
            case h_1 e hrest => exact absurd h (by simp)
            case h_2 tail hrest =>
              cases h
              by_cases hsz : s0 = size
              · subst hsz
                simp [List.lookup] at hr
                refine ⟨List.mem_cons_self _ _, hex, ⟨est, hpe⟩, ?_⟩
                rw [← hr]
                exact get_throughput_ok_mean_ne hgt
              · have hbe : (size == s0) = false := beq_eq_false_iff_ne.mpr (Ne.symm hsz)
                simp [List.lookup, hbe] at hr
                obtain ⟨h1, h2, h3, h4⟩ := ih tail hrest size r hr
                exact ⟨List.mem_cons_of_mem _ h1, h2, h3, h4⟩
    case isFalse hex =>
      obtain ⟨h1, h2, h3, h4⟩ := ih sm h size r hr
      exact ⟨List.mem_cons_of_mem _ h1, h2, h3, h4⟩

theorem summarize_variants_lookup (g : GroupFS) :
    ∀ (ps : List String) (results : Results), summarize_variants g ps = .ok results →
      ∀ (path : String) (sm : SizeMap), results.lookup path = some sm →
        path ∈ ps ∧ g.variantExists path = true ∧ summarize_sizes g path sizes = .ok sm := by
  intro ps
  induction ps with
  | nil =>
    intro results h path sm hsm
    simp only [summarize_variants] at h
    cases h
    simp at hsm
  | cons p rest ih =>
    intro results h path sm hsm
    simp only [summarize_variants] at h
    split at h
    case isTrue hvar =>
      split at h
      case h_1 e hss => exact absurd h (by simp)
      case h_2 sm0 hss =>
        split at h
        case h_1 e htail => exact absurd h (by simp)
        case h_2 tail htail =>
          cases h
          by_cases hps : path = p
          · subst hps
            simp [List.lookup] at hsm
            exact ⟨List.mem_cons_self _ _, hvar, hsm ▸ hss⟩
          · have hbe : (path == p) = false := beq_eq_false_iff_ne.mpr hps
            simp [List.lookup, hbe] at hsm
            obtain ⟨h1, h2, h3⟩ := ih tail htail path sm hsm
            exact ⟨List.mem_cons_of_mem _ h1, h2, h3⟩
    case isFalse hvar =>
      obtain ⟨h1, h2, h3⟩ := ih results h path sm hsm
      exact ⟨List.mem_cons_of_mem _ h1, h2, h3⟩

theorem summarize_variants_mem (g : GroupFS) :
    ∀ (ps : List String) (results : Results), summarize_variants g ps = .ok results →
      ∀ path : String, path ∈ ps → g.variantExists path = true →
        (results.lookup path).isSome = true := by
  intro ps
  induction ps with
  | nil =>
    intro results h path hmem hvar
    exact absurd hmem (List.not_mem_nil _)
  | cons p rest ih =>
    intro results h path hmem hvar
    simp only [summarize_variants] at h
    split at h
    case isTrue hv =>
      split at h
      case h_1 e hss => exact absurd h (by simp)
      case h_2 sm0 hss =>
        split at h
        case h_1 e htail => exact absurd h (by simp)
        case h_2 tail htail =>
          cases h
          by_cases hps : path = p
          · subst hps
            simp [List.lookup]
          · have hbe : (path == p) = false := beq_eq_false_iff_ne.mpr hps
            have hmem2 : path ∈ rest := by
              cases hmem with
              | head => exact absurd rfl hps
              | tail _ hm => exact hm
            simp only [List.lookup, hbe]
            exact ih tail htail path hmem2 hvar
    case isFalse hv =>
      have hmem2 : path ∈ rest := by
        cases hmem with
        | head => exact absurd hvar hv
        | tail _ hm => exact hm
      exact ih results h path hmem2 hvar

theorem summarize_mean_ne (g : GroupFS) (results : Results)
    (h : summarize_dictionary g = .ok results) :
    ∀ (path : String) (size : Nat) (r : ThroughputResult),
      lookup2 results path size = some r → r.mean_ns ≠ 0 := by
  intro path size r hl
  unfold lookup2 at hl
  split at hl
  · simp at hl
  next sm hres =>
    obtain ⟨-, -, hss⟩ := summarize_variants_lookup g paths results h path sm hres
    exact (summarize_sizes_lookup g path sizes sm hss size r hl).2.2.2

theorem compactFold_snd (results : Results) :
    ∀ (ps : List String) (row : String) (b : Option String × ℚ),
      (List.foldl (compactStep results) (row, b) ps).2 = bestScan results ps b := by
  intro ps
  induction ps with
  | nil => intro row b; rfl
  | cons p rest ih =>
    intro row b
    simp only [List.foldl, bestScan]
    cases hc : compactCell results p with
    | none =>
      rw [show compactStep results (row, b) p = (row ++ " " ++ padR "-" 12, b) from by
        simp [compactStep, hc]]
      exact ih _ _
    | some pr =>
      obtain ⟨tp, mbps⟩ := pr
      by_cases hlt : b.2 < mbps
      · rw [show compactStep results (row, b) p = (row ++ " " ++ padR tp 12, some p, mbps) from by
          simp [compactStep, hc, hlt]]
        show _ = if b.2 < mbps then bestScan results rest (some p, mbps) else bestScan results rest b
        rw [if_pos hlt]
        exact ih _ _
      · rw [show compactStep results (row, b) p = (row ++ " " ++ padR tp 12, b) from by
          simp [compactStep, hc, hlt]]
        show _ = if b.2 < mbps then bestScan results rest (some p, mbps) else bestScan results rest b
        rw [if_neg hlt]
        exact ih _ _

theorem pyIndex_error (j : Json) (key : String) (e : PyError)
    (h : pyIndex j key = .error e) : e = .keyError ∨ e = .typeError := by
  cases j with
  | obj fields =>
    simp only [pyIndex] at h
    cases hl : lookupJ fields key with
    | some v => rw [hl] at h; exact absurd h (by simp)
    | none => rw [hl] at h; exact Or.inl (Except.error.inj h).symm
  | null => simp only [pyIndex] at h; exact Or.inr (Except.error.inj h).symm
  | bool b => simp only [pyIndex] at h; exact Or.inr (Except.error.inj h).symm
  | num q => simp only [pyIndex] at h; exact Or.inr (Except.error.inj h).symm
  | str s => simp only [pyIndex] at h; exact Or.inr (Except.error.inj h).symm
  | arr elems => simp only [pyIndex] at h; exact Or.inr (Except.error.inj h).symm

theorem extractEstimates_error (data : Json) (e : PyError)
    (h : extractEstimates data = .error e) : e = .keyError ∨ e = .typeError := by
  simp only [extractEstimates] at h
  split at h
  case h_1 e1 h1 =>
    cases h
    exact pyIndex_error data "mean" e h1
  case h_2 m h1 =>
    split at h
    case h_1 e2 h2 =>
      cases h
      exact pyIndex_error m "point_estimate" e h2
    case h_2 mp h2 =>
      split at h
      case h_1 e3 h3 =>
        cases h
        exact pyIndex_error data "std_dev" e h3
      case h_2 s h3 =>
        split at h
        case h_1 e4 h4 =>
          cases h
          exact pyIndex_error s "point_estimate" e h4
        case h_2 sp h4 => exact absurd h (by simp)

theorem parse_estimates_error (file : FileRead) (e : PyError)
    (h : parse_estimates file = .error e) : e = .typeError := by
  cases file with
  | absent => simp [parse_estimates] at h
  | malformed => simp [parse_estimates] at h
  | content data =>
    simp only [parse_estimates] at h
    split at h
    next est heq => exact absurd h (by simp)
    next heq => exact absurd h (by simp)
    case h_3 =>
      rename_i x e2 hne heq
      rcases extractEstimates_error data e2 heq with h1 | h1
      · exact absurd h1 hne
      · exact (Except.error.inj h).symm.trans h1

/-- Claim C1 counterexample: a discovered group with no variant
subdirectories is dropped from the compact report: the output of
`print_full_table` on `fsC1` (root present, one group directory `g`)
consists of the header and rule lines only, and no printed line starts
with the group name `g`, contradicting the claim that the group is still
printed as a row of placeholder dashes. -/
theorem C1_cx_empty_group_not_listed :
    print_full_table fsC1 = .finished (compactHeader ++ [repChar '-' 90]) ∧
    ((compactHeader ++ [repChar '-' 90]).all fun l => l.data.head? != some 'g') = true :=
  ⟨rfl, by decide⟩

/-- Claim C1 (amended): in compact mode a group whose aggregation produced
an empty results structure is skipped (`if not results: continue`), while
a group with at least one variant directory but no parsed records is
printed as a row of placeholder dashes with no best entry. -/
theorem C1_compact_empty_group_skipped :
    (∀ (name : String) (rest : List (String × Results)),
      compactBody ((name, ([] : Results)) :: rest) = compactBody rest) ∧
    compactRow "g" [("Scalar", [])] =
      "g                         -            -            -           " ∧
    (compactFold "g" [("Scalar", [])]).2.1 = none := by
  refine ⟨fun name rest => ?_, rfl, rfl⟩
  simp [compactBody]

/-- Claim C2 counterexample: in `gC2` the `Scalar` variant directory
exists but contains no size directories at all, so no record is parsed,
yet `summarize_dictionary` returns a structure in which `Scalar` is
present as a key (with an empty inner mapping), contradicting the claim
that a variant key is present only if a record parsed successfully. -/
theorem C2_cx_variant_key_without_parse :
    summarize_dictionary gC2 = .ok [("Scalar", [])] ∧
    (([("Scalar", ([] : SizeMap))] : Results).lookup "Scalar").isSome = true ∧
    (sizes.all fun s => !gC2.sizeExists "Scalar" s) = true :=
  ⟨rfl, rfl, by decide⟩

/-- Claim C2 (amended): in a successful aggregation, a variant key is
present exactly when the variant is in the fixed enumeration and its
directory exists (regardless of whether any record parsed), and a size
key is present only when the size is in the fixed enumeration, its
directory exists, and its record parsed successfully. -/
theorem C2_key_presence (g : GroupFS) (results : Results)
    (h : summarize_dictionary g = .ok results) :
    (∀ path : String, (results.lookup path).isSome = true ↔
      (path ∈ paths ∧ g.variantExists path = true)) ∧
    (∀ (path : String) (sm : SizeMap) (size : Nat), results.lookup path = some sm →
      (sm.lookup size).isSome = true →
      size ∈ sizes ∧ g.sizeExists path size = true ∧
        ∃ est, parse_estimates (g.file path size) = .ok (some est)) := by
  constructor
  · intro path
    constructor
    · intro hs
      obtain ⟨sm, hsm⟩ := Option.isSome_iff_exists.mp hs
      obtain ⟨h1, h2, -⟩ := summarize_variants_lookup g paths results h path sm hsm
      exact ⟨h1, h2⟩
    · rintro ⟨h1, h2⟩
      exact summarize_variants_mem g paths results h path h1 h2
  · intro path sm size hsm hs
    obtain ⟨r, hr⟩ := Option.isSome_iff_exists.mp hs
    obtain ⟨-, -, hss⟩ := summarize_variants_lookup g paths results h path sm hsm
    obtain ⟨k1, k2, k3, -⟩ := summarize_sizes_lookup g path sizes sm hss size r hr
    exact ⟨k1, k2, k3⟩

/-- Witness for C2: the amended key-presence theorem applied to the
concrete group `gC2`, whose aggregation is `[("Scalar", [])]`. -/
theorem C2_key_presence_witness :
    (([("Scalar", ([] : SizeMap))] : Results).lookup "Scalar").isSome = true ↔
      ("Scalar" ∈ paths ∧ gC2.variantExists "Scalar" = true) :=
  (C2_key_presence gC2 [("Scalar", [])] rfl).1 "Scalar"

/-- Claim C3 counterexample: for `size_bytes = 65536` and
`mean_ns = 65536` the code computes `mb_per_sec = 10^9 / 2^20 =
953.674...`, displayed as `"953.7 MB/s"`, not the claimed `976.56` and
`"976.6 MB/s"`. -/
theorem C3_cx_throughput_65536 :
    get_throughput 65536 65536 = .ok (1000000000 / 1048576, "953.7 MB/s") ∧
    (1000000000 / 1048576 : ℚ) < 976 ∧ "953.7 MB/s" ≠ "976.6 MB/s" :=
  ⟨by with_unfolding_all rfl, by norm_num, by decide⟩

/-- Claim C3 (amended): for `size_bytes = 65536` and `mean_ns = 65536`
the throughput calculation yields `mb_per_sec = 10^9 / 2^20 ≈ 953.67` and
the display string `"953.7 MB/s"`. -/
theorem C3_throughput_65536 :
    get_throughput 65536 65536 = .ok (1000000000 / 1048576, "953.7 MB/s") ∧
    (95367 / 100 : ℚ) < 1000000000 / 1048576 ∧
    (1000000000 / 1048576 : ℚ) < 95368 / 100 :=
  ⟨by with_unfolding_all rfl, by norm_num, by norm_num⟩

/-- Claim C4 counterexample: a parsed record whose `"mean"` field holds a
number rather than an object (wrong shape) makes `parse_estimates` raise
`TypeError` to its caller instead of returning the absence value. -/
theorem C4_cx_wrong_shape :
    parse_estimates (.content (.obj [("mean", .num 5)])) = .error .typeError := rfl

/-- Claim C4 (amended): an absent location, unparsable content, or a
missing required field all collapse to the absence value `none`, and any
escaping exception is a `TypeError` from wrong-shaped content; missing
fields are never propagated as errors. -/
theorem C4_error_handling :
    parse_estimates .absent = .ok none ∧
    parse_estimates .malformed = .ok none ∧
    (∀ fields : List (String × Json), lookupJ fields "mean" = none →
      parse_estimates (.content (.obj fields)) = .ok none) ∧
    (∀ fields mfields : List (String × Json),
      lookupJ fields "mean" = some (.obj mfields) →
      lookupJ mfields "point_estimate" = none →
      parse_estimates (.content (.obj fields)) = .ok none) ∧
    (∀ (file : FileRead) (e : PyError), parse_estimates file = .error e → e = .typeError) := by
  refine ⟨rfl, rfl, ?_, ?_, parse_estimates_error⟩
  · intro fields h
    simp [parse_estimates, extractEstimates, pyIndex, h]
  · intro fields mfields h1 h2
    simp [parse_estimates, extractEstimates, pyIndex, h1, h2]

/-- Witness for C4: the missing-field conjunct applied to an empty JSON
object. -/
theorem C4_error_handling_witness :
    parse_estimates (.content (.obj [])) = .ok none :=
  C4_error_handling.2.2.1 [] rfl

/-- Claim C5: for positive `mean_ns` and `size_bytes`, `get_throughput`
returns `mb_per_sec = size_bytes / (mean_ns * 1e-9) / (1024*1024)` and
uses GB/s formatting (value divided by 1024, two decimals) exactly when
the unrounded `mb_per_sec` is at least 1000, MB/s formatting (one
decimal) otherwise. -/
theorem C5_throughput_formula (mean_ns size_bytes : ℚ)
    (hm : 0 < mean_ns) (hs : 0 < size_bytes) :
    get_throughput mean_ns size_bytes = .ok
      (size_bytes / (mean_ns * (1 / 1000000000)) / (1024 * 1024),
        if size_bytes / (mean_ns * (1 / 1000000000)) / (1024 * 1024) ≥ 1000 then
          formatFixed (size_bytes / (mean_ns * (1 / 1000000000)) / (1024 * 1024) / 1024) 2 ++
            " GB/s"
        else formatFixed (size_bytes / (mean_ns * (1 / 1000000000)) / (1024 * 1024)) 1 ++
          " MB/s") := by
  have he : mean_ns * (1 / 1000000000) = mean_ns / 1000000000 := by ring
  have hne : mean_ns / 1000000000 ≠ 0 := div_ne_zero (ne_of_gt hm) (by norm_num)
  rw [he]
  simp only [get_throughput]
  rw [if_neg hne]
  split
  next => rfl
  next => rfl

/-- Witness for C5 at `mean_ns = 1000000`, `size_bytes = 1048576`. -/
theorem C5_throughput_formula_witness :
    (0:ℚ) < 1000000 ∧ (0:ℚ) < 1048576 ∧
    get_throughput 1000000 1048576 = .ok
      ((1048576:ℚ) / ((1000000:ℚ) * (1 / 1000000000)) / (1024 * 1024),
        if (1048576:ℚ) / ((1000000:ℚ) * (1 / 1000000000)) / (1024 * 1024) ≥ 1000 then
          formatFixed ((1048576:ℚ) / ((1000000:ℚ) * (1 / 1000000000)) / (1024 * 1024) / 1024) 2 ++
            " GB/s"
        else formatFixed ((1048576:ℚ) / ((1000000:ℚ) * (1 / 1000000000)) / (1024 * 1024)) 1 ++
          " MB/s") :=
  ⟨by norm_num, by norm_num,
    C5_throughput_formula 1000000 1048576 (by norm_num) (by norm_num)⟩

/-- Claim C6 counterexample: `gC6` aggregates to equal (negative)
throughputs for Scalar and LUT at size 65536 with Specialized absent, yet
the best-variant fold reports no best at all (the initial best threshold
is `0`), not `Scalar` as the claim asserts for equal throughputs. -/
theorem C6_cx_nonpositive_tie :
    summarize_dictionary gC6 = .ok rC6 ∧
    (lookup2 rC6 "Scalar" 65536).map (fun r => r.throughput_mbps) = some (-62500000) ∧
    (lookup2 rC6 "LUT" 65536).map (fun r => r.throughput_mbps) = some (-62500000) ∧
    lookup2 rC6 "Specialized" 65536 = none ∧
    (compactFold "enc" rC6).2.1 = none :=
  ⟨by with_unfolding_all rfl, rfl, rfl, rfl, by with_unfolding_all rfl⟩

/-- Claim C6 (amended): the best variant is selected in fixed order
Scalar, LUT, Specialized by strict comparison against the running best
(initially 0), so when Scalar and LUT report the same positive
`throughput_mbps` at size 65536 and Specialized is absent or lower, the
best variant is Scalar. -/
theorem C6_tie_break (name : String) (results : Results) (tS tL : String) (q : ℚ)
    (hS : compactCell results "Scalar" = some (tS, q))
    (hL : compactCell results "LUT" = some (tL, q))
    (hq : 0 < q)
    (hP : compactCell results "Specialized" = none ∨
      ∃ tP qP, compactCell results "Specialized" = some (tP, qP) ∧ qP < q) :
    (compactFold name results).2.1 = some "Scalar" := by
  unfold compactFold
  rw [compactFold_snd results paths (padR name 25) (none, 0)]
  unfold paths
  rw [show bestScan results ["Scalar", "LUT", "Specialized"] (none, 0) =
      bestScan results ["LUT", "Specialized"] (some "Scalar", q) from by
    simp [bestScan, hS, hq]]
  rw [show bestScan results ["LUT", "Specialized"] (some "Scalar", q) =
      bestScan results ["Specialized"] (some "Scalar", q) from by
    simp [bestScan, hL]]
  rcases hP with hPn | ⟨tP, qP, hPs, hqP⟩
  · simp [bestScan, hPn]
  · simp [bestScan, hPs, lt_asymm hqP]

/-- Witness for C6 on a concrete tie at positive throughput 5. -/
theorem C6_tie_break_witness : (compactFold "g" rW6).2.1 = some "Scalar" :=
  C6_tie_break "g" rW6 "t" "t" 5 rfl rfl (by norm_num) (Or.inl rfl)

/-- Claim C7: for `size_bytes = 1048576` and `mean_ns = 1000000` the
throughput is exactly 1000 MB/s, which meets the GB/s threshold and is
displayed as `"0.98 GB/s"`. -/
theorem C7_boundary_gb :
    get_throughput 1000000 1048576 = .ok (1000, "0.98 GB/s") ∧ ((1000:ℚ) ≥ 1000) :=
  ⟨by with_unfolding_all rfl, le_refl _⟩

/-- Claim C8: for any group aggregated successfully, if Scalar has a
result at size 65536 the speedup section prints the header followed by
one line `scalar_ns / variant_ns` (one decimal, `x` suffix) for each of
LUT and Specialized present at that size, raising nothing; if Scalar has
no result at size 65536 nothing of the section is printed. -/
theorem C8_speedup_section (g : GroupFS) (results : Results)
    (h : summarize_dictionary g = .ok results) :
    (lookup2 results "Scalar" 65536 = none → speedupSectionLines results = ([], none)) ∧
    (∀ rS : ThroughputResult, lookup2 results "Scalar" 65536 = some rS →
      speedupSectionLines results =
        ("\n  Speedup vs Scalar (64KB):" ::
          (speedupLinesOf rS.mean_ns results "LUT" ++
            speedupLinesOf rS.mean_ns results "Specialized"), none)) := by
  constructor
  · intro h0
    simp only [speedupSectionLines, h0]
  · intro rS hS
    have hne := summarize_mean_ne g results h
    have hLut : speedupLine rS.mean_ns results "LUT" =
        .ok (speedupLinesOf rS.mean_ns results "LUT") := by
      unfold speedupLine speedupLinesOf
      cases hL : lookup2 results "LUT" 65536 with
      | none => simp
      | some rL => simp [hne "LUT" 65536 rL hL]
    have hSp : speedupLine rS.mean_ns results "Specialized" =
        .ok (speedupLinesOf rS.mean_ns results "Specialized") := by
      unfold speedupLine speedupLinesOf
      cases hL : lookup2 results "Specialized" 65536 with
      | none => simp
      | some rL => simp [hne "Specialized" 65536 rL hL]
    simp only [speedupSectionLines, hS, hLut, hSp]
    simp

/-- Witness for C8 on the concrete group `gC8` (Scalar 1000 ns, LUT 500
ns at 64KB): the printed section is the header and `LUT: 2.0x`. -/
theorem C8_speedup_section_witness :
    speedupSectionLines rC8 = (["\n  Speedup vs Scalar (64KB):", "    LUT: 2.0x"], none) := by
  have h := (C8_speedup_section gC8 rC8 (by with_unfolding_all rfl)).2
    ⟨1000, Json.num 2, "61.04 GB/s", 62500⟩ rfl
  rw [h]
  with_unfolding_all rfl

/-- Claim C9 counterexample: with the root directory present but a group
holding a zero-mean record, `print_full_table` aborts by an uncaught
`ZeroDivisionError`, so the missing-root exit is not the only aborting
path. -/
theorem C9_cx_other_abort_path :
    print_full_table fsC10 = .raised [] .zeroDivisionError ∧ fsC10.rootExists = true :=
  ⟨by with_unfolding_all rfl, rfl⟩

/-- Claim C9 (amended): in both report modes a missing root directory
prints the single instruction line and exits with status 1, producing no
table output; however uncaught exceptions (such as `ZeroDivisionError`
from a zero mean estimate) can abort the program on other paths. -/
theorem C9_root_missing (fs : CriterionFS) (h : fs.rootExists = false) :
    print_full_table fs = .exited ["No benchmark results found. Run: cargo bench"] 1 ∧
    print_detailed fs = .exited ["No benchmark results found. Run: cargo bench"] 1 := by
  constructor <;> simp [print_full_table, print_detailed, h]

/-- Witness for C9 on a concrete missing root. -/
theorem C9_root_missing_witness :
    print_full_table fsNoRoot = .exited ["No benchmark results found. Run: cargo bench"] 1 ∧
    print_detailed fsNoRoot = .exited ["No benchmark results found. Run: cargo bench"] 1 :=
  C9_root_missing fsNoRoot rfl

/-- Claim C10: `get_throughput` is partial: a zero mean makes the
division by `seconds` raise `ZeroDivisionError` for every size, the error
occurs exactly when `mean_ns = 0`, and a successfully parsed zero-mean
record (group `gC10`) crashes the aggregation pipeline. -/
theorem C10_zero_mean_crash :
    (∀ size_bytes : ℚ, get_throughput 0 size_bytes = .error .zeroDivisionError) ∧
    (∀ mean_ns size_bytes : ℚ,
      get_throughput mean_ns size_bytes = .error .zeroDivisionError ↔ mean_ns = 0) ∧
    summarize_dictionary gC10 = .error .zeroDivisionError := by
  refine ⟨fun s => by simp [get_throughput], fun m s => ?_, by with_unfolding_all rfl⟩
  constructor
  · intro h
    by_contra hm
    have hne : m / 1000000000 ≠ 0 := div_ne_zero hm (by norm_num)
    simp only [get_throughput] at h
    rw [if_neg hne] at h
    split at h <;> simp at h
  · rintro rfl
    simp [get_throughput]

end BenchSummary
